import Mathlib

/-!
# Verification of the chat-backend document digital-signature subsystem

A shallow embedding, in Lean 4, of the `src/signature` package of the
chat-backend repository: `KeyManager`, `DocumentSigner` and
`SignatureVerifier`, together with the data model (`models.py`), and proofs
of the behavioural properties stated in the design document.

The filesystem is modelled as a partial map from path strings to file
contents; the RSA-PSS primitive is modelled as a perfect signature scheme
(a signature records which key pair produced it and which message was
signed, and cryptographic verification succeeds exactly for the matching
public key and message); SHA-256 is embedded concretely, bit for bit, so
that concrete hash values (such as the digest of `"abc"`) compute inside
the logic.
-/

set_option maxRecDepth 100000

namespace ChatSec

/-! ## SHA-256, embedded concretely over byte lists -/

/-- 2^32, the modulus of the 32-bit words SHA-256 works in. -/
def M32 : Nat := 4294967296

/-- Addition modulo 2^32. -/
def add32 (a b : Nat) : Nat := (a + b) % M32

/-- Right rotation of a 32-bit word by `n` bits. -/
def rotr (n x : Nat) : Nat := ((x >>> n) ||| (x <<< (32 - n))) % M32

/-- Bitwise complement of a 32-bit word. -/
def not32 (x : Nat) : Nat := x ^^^ (M32 - 1)

/-- SHA-256 `Ch` function. -/
def ch32 (x y z : Nat) : Nat := (x &&& y) ^^^ (not32 x &&& z)

/-- SHA-256 `Maj` function. -/
def maj32 (x y z : Nat) : Nat := (x &&& y) ^^^ (x &&& z) ^^^ (y &&& z)

/-- SHA-256 big Σ₀. -/
def bSig0 (x : Nat) : Nat := rotr 2 x ^^^ rotr 13 x ^^^ rotr 22 x

/-- SHA-256 big Σ₁. -/
def bSig1 (x : Nat) : Nat := rotr 6 x ^^^ rotr 11 x ^^^ rotr 25 x

/-- SHA-256 small σ₀. -/
def sSig0 (x : Nat) : Nat := rotr 7 x ^^^ rotr 18 x ^^^ (x >>> 3)

/-- SHA-256 small σ₁. -/
def sSig1 (x : Nat) : Nat := rotr 17 x ^^^ rotr 19 x ^^^ (x >>> 10)

/-- The 64 SHA-256 round constants (FIPS 180-4 §4.2.2), in decimal. -/
def sha256K : List Nat :=
  [1116352408, 1899447441, 3049323471, 3921009573, 961987163, 1508970993,
   2453635748, 2870763221, 3624381080, 310598401, 607225278, 1426881987,
   1925078388, 2162078206, 2614888103, 3248222580, 3835390401, 4022224774,
   264347078, 604807628, 770255983, 1249150122, 1555081692, 1996064986,
   2554220882, 2821834349, 2952996808, 3210313671, 3336571891, 3584528711,
   113926993, 338241895, 666307205, 773529912, 1294757372, 1396182291,
   1695183700, 1986661051, 2177026350, 2456956037, 2730485921, 2820302411,
   3259730800, 3345764771, 3516065817, 3600352804, 4094571909, 275423344,
   430227734, 506948616, 659060556, 883997877, 958139571, 1322822218,
   1537002063, 1747873779, 1955562222, 2024104815, 2227730452, 2361852424,
   2428436474, 2756734187, 3204031479, 3329325298]

/-- The working state of the compression function: eight 32-bit words. -/
structure Sha256State where
  a : Nat
  b : Nat
  c : Nat
  d : Nat
  e : Nat
  f : Nat
  g : Nat
  h : Nat
deriving DecidableEq, Repr

/-- The SHA-256 initial hash value (FIPS 180-4 §5.3.3), in decimal. -/
def sha256H0 : Sha256State :=
  Sha256State.mk 1779033703 3144134277 1013904242 2773480762
                 1359893119 2600822924 528734635 1541459225

/-- Pack a byte list into big-endian 32-bit words (leftover bytes dropped;
the padding step always supplies a multiple of four). -/
def toWords : List Nat → List Nat
  | a :: b :: c :: d :: rest =>
      (((a % 256) <<< 24) ||| ((b % 256) <<< 16) ||| ((c % 256) <<< 8) ||| (d % 256))
        :: toWords rest
  | _ => []

/-- One extension step of the message schedule: append
`σ₁(w[t−2]) + w[t−7] + σ₀(w[t−15]) + w[t−16]`. -/
def extendStep (w : List Nat) : List Nat :=
  w ++ [add32 (add32 (sSig1 (w.getD (w.length - 2) 0)) (w.getD (w.length - 7) 0))
             (add32 (sSig0 (w.getD (w.length - 15) 0)) (w.getD (w.length - 16) 0))]

/-- Iterate the schedule extension `n` times. -/
def extendScheduleAux : Nat → List Nat → List Nat
  | 0, w => w
  | n + 1, w => extendScheduleAux n (extendStep w)

/-- Extend the 16 words of a block to the 64 words of the schedule. -/
def msgSchedule (w : List Nat) : List Nat := extendScheduleAux 48 w

/-- The 64 compression rounds, consuming the list of per-round values
`k[t] + w[t]`. -/
def sha256Rounds : List Nat → Sha256State → Sha256State
  | [], s => s
  | t :: ts, s =>
      let t1 := add32 s.h (add32 (bSig1 s.e) (add32 (ch32 s.e s.f s.g) t))
      let t2 := add32 (bSig0 s.a) (maj32 s.a s.b s.c)
      sha256Rounds ts
        (Sha256State.mk (add32 t1 t2) s.a s.b s.c (add32 s.d t1) s.e s.f s.g)

/-- Pointwise 32-bit addition of two states (the Davies–Meyer feed-forward). -/
def addStates (x y : Sha256State) : Sha256State :=
  Sha256State.mk (add32 x.a y.a) (add32 x.b y.b) (add32 x.c y.c) (add32 x.d y.d)
                 (add32 x.e y.e) (add32 x.f y.f) (add32 x.g y.g) (add32 x.h y.h)

/-- Process `n` 64-byte chunks of the (already padded) message. -/
def processChunks : Nat → List Nat → Sha256State → Sha256State
  | 0, _, st => st
  | n + 1, bytes, st =>
      let w := msgSchedule (toWords (bytes.take 64))
      let st' := addStates st (sha256Rounds (List.zipWith add32 sha256K w) st)
      processChunks n (bytes.drop 64) st'

/-- Big-endian bytes of a Nat, `n` bytes wide. -/
def natToBytesBE : Nat → Nat → List Nat
  | 0, _ => []
  | n + 1, v => ((v >>> (8 * n)) % 256) :: natToBytesBE n v

/-- SHA-256 padding: a `0x80` byte, zeros to 56 mod 64, then the bit length
as eight big-endian bytes. -/
def padMessage (msg : List Nat) : List Nat :=
  let len := msg.length
  let padZeros := (119 - len % 64) % 64
  msg ++ 0x80 :: List.replicate padZeros 0 ++ natToBytesBE 8 (len * 8)

/-- The digest words of a final state, in output order. -/
def stateWords (s : Sha256State) : List Nat :=
  [s.a, s.b, s.c, s.d, s.e, s.f, s.g, s.h]

/-- The four big-endian bytes of a 32-bit word. -/
def wordToBytes (w : Nat) : List Nat :=
  [(w >>> 24) % 256, (w >>> 16) % 256, (w >>> 8) % 256, w % 256]

/-- The two lowercase hex characters of one byte (`Nat.digitChar` renders
0–15 as `0`–`9`, `a`–`f`, matching Python's `bytes.hex()`). -/
def byteHexChars (b : Nat) : List Char :=
  [Nat.digitChar ((b / 16) % 16), Nat.digitChar (b % 16)]

/-- A byte list rendered as a lowercase hex string. -/
def bytesToHex (l : List Nat) : String :=
  String.mk (l.foldr (fun b acc => byteHexChars b ++ acc) [])

/-- SHA-256 of a byte list (each entry one byte), as 32 digest bytes. -/
def sha256Bytes (msg : List Nat) : List Nat :=
  let padded := padMessage msg
  let final := processChunks (padded.length / 64) padded sha256H0
  (stateWords final).foldr (fun w acc => wordToBytes w ++ acc) []

/-- SHA-256 of a byte list, as the lowercase hex string the Python
`hashlib`/`cryptography` pipeline produces via `.hex()`. -/
def sha256hex (msg : List Nat) : String := bytesToHex (sha256Bytes msg)

/-- The UTF-8 bytes of a string (ASCII in every use the subsystem makes). -/
def strBytes (s : String) : List Nat := s.data.map Char.toNat

/-- Sanity anchor from the design document's concrete scenario: the SHA-256
of the three bytes `"abc"` is the well-known test vector. -/
theorem sha256hex_abc :
    sha256hex (strBytes "abc") =
      "ba7816bf8f01cfea414140de5dae2223b00361a396177a9cb410ff61f20015ad" := by
  decide

/-! ## Base64 and PEM armor

`KeyManager.get_public_key_fingerprint` serializes the public key with
`Encoding.PEM` / `PublicFormat.SubjectPublicKeyInfo` before hashing, so the
exact PEM byte stream matters: base64 of the DER bytes, wrapped in 64-column
lines, between the `BEGIN PUBLIC KEY` / `END PUBLIC KEY` armor lines. -/

/-- The base64 alphabet. -/
def b64Alphabet : List Char :=
  ['A', 'B', 'C', 'D', 'E', 'F', 'G', 'H', 'I', 'J', 'K', 'L', 'M',
   'N', 'O', 'P', 'Q', 'R', 'S', 'T', 'U', 'V', 'W', 'X', 'Y', 'Z',
   'a', 'b', 'c', 'd', 'e', 'f', 'g', 'h', 'i', 'j', 'k', 'l', 'm',
   'n', 'o', 'p', 'q', 'r', 's', 't', 'u', 'v', 'w', 'x', 'y', 'z',
   '0', '1', '2', '3', '4', '5', '6', '7', '8', '9', '+', '/']

/-- The base64 character for a 6-bit value. -/
def b64c (n : Nat) : Char := b64Alphabet.getD n 'A'

/-- Base64 encoding of a byte list, with `=` padding. -/
def b64Encode : List Nat → List Char
  | a :: b :: c :: rest =>
      b64c (a >>> 2) :: b64c (((a &&& 3) <<< 4) ||| (b >>> 4)) ::
      b64c (((b &&& 15) <<< 2) ||| (c >>> 6)) :: b64c (c &&& 63) :: b64Encode rest
  | [a, b] => [b64c (a >>> 2), b64c (((a &&& 3) <<< 4) ||| (b >>> 4)),
               b64c ((b &&& 15) <<< 2), '=']
  | [a] => [b64c (a >>> 2), b64c ((a &&& 3) <<< 4), '=', '=']
  | [] => []

/-- Split a character stream into newline-terminated lines of at most 64
characters (fuel-driven; the fuel is always at least the number of lines). -/
def wrapChunks64 : Nat → List Char → List Char
  | _, [] => []
  | 0, l => l ++ ['\n']
  | n + 1, l => l.take 64 ++ '\n' :: wrapChunks64 n (l.drop 64)

/-- A public key is modelled by its DER-encoded SubjectPublicKeyInfo bytes,
the canonical binary serialization the `cryptography` library produces for
`PublicFormat.SubjectPublicKeyInfo`. -/
abbrev PubKey : Type := List Nat

/-- The PEM armor of a SubjectPublicKeyInfo serialization:
`Encoding.PEM` of the `cryptography` library, as a byte list. -/
def pemEncodeSPKI (der : PubKey) : List Nat :=
  (("-----BEGIN PUBLIC KEY-----\n".data
      ++ wrapChunks64 (List.length der) (b64Encode der)
      ++ "-----END PUBLIC KEY-----\n".data).map Char.toNat)

/-! ## The perfect-cryptography model of RSA-PSS

A private key is identified by the public key derived from it.  A signature
records which public key verifies it and which message was signed;
`rsaPssVerify` succeeds exactly for that key and message.  This models
RSA-PSS as an ideal signature scheme — the claims under verification are
about control flow and data flow around the primitive, not about its
cryptographic strength. -/

/-- An RSA private key, identified by its derived public key
(`private_key.public_key()` in the source). -/
structure PrivKey where
  pub : PubKey
deriving DecidableEq, Repr

/-- An RSA-PSS signature: the verifying public key and the signed message. -/
structure RsaSig where
  keyPub : PubKey
  message : List Nat
deriving DecidableEq, Repr

/-- `private_key.sign(message, PSS(MGF1(SHA256), MAX_LENGTH), SHA256)`. -/
def rsaPssSign (k : PrivKey) (msg : List Nat) : RsaSig := RsaSig.mk k.pub msg

/-- `public_key.verify(signature, message, PSS(...), SHA256)`, as a Boolean
(the source converts the `InvalidSignature` exception to `False`). -/
def rsaPssVerify (pub : PubKey) (sig : RsaSig) (msg : List Nat) : Bool :=
  if sig.keyPub = pub ∧ sig.message = msg then true else false

/-! ## The data model (`models.py`) -/

/-- `DocumentType`: supported document types. -/
inductive DocumentType
  | TXT
  | PDF
  | ZIP
deriving DecidableEq, Repr

/-- The `value` of each `DocumentType` enum member. -/
def DocumentType.value : DocumentType → String
  | .TXT => "txt"
  | .PDF => "pdf"
  | .ZIP => "zip"

/-- `SignatureStatus`: the declared status enumeration. -/
inductive SignatureStatus
  | VALID
  | INVALID
  | TAMPERED
  | EXPIRED
  | KEY_MISMATCH
deriving DecidableEq, Repr

/-- `SignatureMetadata`: the metadata block of a signature.  The timestamp
is modelled as a `Nat` (the subsystem never computes with it). -/
structure SignatureMetadata where
  signer_name : String
  signer_email : String
  signature_date : Nat
  document_hash : String
  signature_algorithm : String
  key_fingerprint : Option String
  additional_info : List (String × String)
deriving DecidableEq, Repr

/-- `SignatureResult`: the structured result of a sign or verify call.
Field order follows the dataclass: success, message, then the optional
status, metadata, signature data, signed-file path and error detail. -/
structure SignatureResult where
  success : Bool
  message : String
  status : Option SignatureStatus
  metadata : Option SignatureMetadata
  signature_data : Option RsaSig
  signed_file_path : Option String
  error : Option String
deriving DecidableEq, Repr

/-- `SignatureRequest`: input to `sign_document`. -/
structure SignatureRequest where
  document_path : String
  signer_name : String
  signer_email : String
  output_path : Option String
  additional_info : List (String × String)
deriving DecidableEq, Repr

/-- `VerificationRequest`: input to `verify_document`. -/
structure VerificationRequest where
  signed_document_path : String
  original_document_path : Option String
  public_key_path : Option String
deriving DecidableEq, Repr

/-- The sidecar artifact (`<document>.sig`): signature plus metadata, as
serialized by `_save_signature` and parsed back by `_load_signature_file`. -/
structure SigPackage where
  signature : RsaSig
  metadata : SignatureMetadata
deriving DecidableEq, Repr

/-! ## The filesystem model

A file is raw bytes, a parsed sidecar package, or a PEM public key; a
filesystem is a partial map from paths to files.  Representing the sidecar
and key files structurally models that their JSON/PEM serializations
round-trip and that parsing any other content fails. -/

/-- The content of one file. -/
inductive FileData
  | bytes (content : List Nat)
  | sigFile (pkg : SigPackage)
  | pubKeyPem (key : PubKey)
deriving DecidableEq, Repr

/-- An abstract byte rendering of the sidecar JSON document (the exact JSON
text is never relied on; only that the file has *some* byte content). -/
def sigPackageBytes (pkg : SigPackage) : List Nat :=
  strBytes pkg.metadata.signer_name ++ 0 :: strBytes pkg.metadata.signer_email
    ++ 0 :: strBytes pkg.metadata.document_hash
    ++ 0 :: pkg.signature.keyPub ++ 0 :: pkg.signature.message

/-- The on-disk bytes of a file (what `open(path, 'rb').read()` yields). -/
def FileData.toBytes : FileData → List Nat
  | .bytes c => c
  | .sigFile pkg => sigPackageBytes pkg
  | .pubKeyPem k => pemEncodeSPKI k

/-- A filesystem: paths to file contents;
`none` means the path does not exist. -/
def FS : Type := String → Option FileData

/-- Writing one file (`open(path, 'w')` plus `json.dump`/`write`). -/
def FS.update (fs : FS) (p : String) (d : FileData) : FS :=
  fun q => if q = p then some d else fs q

/-! ## Path helpers (`pathlib.PurePath.name` / `.suffix`, `str.endswith`,
slicing) -/

/-- The characters of `Path(p).name`: everything after the last `/`. -/
def pathNameChars (l : List Char) : List Char :=
  (l.reverse.takeWhile (fun c => c ≠ '/')).reverse

/-- `Path(p).name`. -/
def pathName (p : String) : String := String.mk (pathNameChars p.data)

/-- `Path(p).suffix`: from the last dot of the name, provided that dot is
neither the leading character nor the final one (CPython's rule). -/
def pathSuffix (p : String) : String :=
  let name := pathNameChars p.data
  match name.reverse.findIdx? (fun c => c = '.') with
  | none => ""
  | some j =>
      let i := name.length - 1 - j
      if 0 < i ∧ i < name.length - 1 then String.mk (name.drop i) else ""

/-- `str.lower()` (ASCII suffices for the extensions compared against). -/
def strLower (s : String) : String := String.mk (s.data.map Char.toLower)

/-- `str.endswith(suffix)`. -/
def strEndsWith (s suffix : String) : Bool :=
  List.isSuffixOf suffix.data s.data

/-- `s[:-n]` for `0 < n ≤ len(s)`: drop the last `n` characters. -/
def strDropRight (s : String) (n : Nat) : String :=
  String.mk (s.data.take (s.data.length - n))

/-! ## KeyManager (`key_manager.py`)

The verifier-side state of a `KeyManager` is just its currently loaded
public key (`self.public_key`), `none` when no key is loaded. -/

/-- `KeyManager.load_public_key(filepath)`: returns the loaded key (or
`None`) and the key manager's public-key field afterwards.  A missing file
or unparsable content leaves the previously loaded key in place (the
exception is raised before the assignment to `self.public_key`). -/
def loadPublicKey (current : Option PubKey) (fs : FS) (filepath : String) :
    Option PubKey × Option PubKey :=
  match fs filepath with
  | some (.pubKeyPem k) => (some k, some k)
  | some _ => (none, current)
  | none => (none, current)

/-- `KeyManager.get_public_key_fingerprint()`: `None` without a loaded key;
otherwise the key is serialized with `Encoding.PEM` /
`PublicFormat.SubjectPublicKeyInfo`, that byte stream is hashed with
SHA-256, and the digest is rendered in hex. -/
def getPublicKeyFingerprint (key : Option PubKey) : Option String :=
  match key with
  | none => none
  | some k => some (sha256hex (pemEncodeSPKI k))

/-- Modelled from the spec: the fingerprint as §3/§4.1 of the design
document describe it — the hex SHA-256 digest of the *DER-encoded*
SubjectPublicKeyInfo bytes (a public key is modelled by exactly those DER
bytes).  Stated only to compare against `getPublicKeyFingerprint`, which is
translated from the source. -/
def specFingerprintDER (key : Option PubKey) : Option String :=
  match key with
  | none => none
  | some k => some (sha256hex k)

/-! ## DocumentSigner (`document_signer.py`) -/

/-- `_calculate_document_hash`: SHA-256 over the file bytes, hex encoded.
(The chunked read of the source streams the same byte sequence.) -/
def calculateDocumentHash (fd : FileData) : String := sha256hex fd.toBytes

/-- `_get_signature_file_path`: `f"{document_path}.sig"`. -/
def getSignatureFilePath (document_path : String) : String :=
  document_path ++ ".sig"

/-- `_detect_document_type`: by lowercased extension, else `None`. -/
def detectDocumentType (file_path : String) : Option DocumentType :=
  let extension := strLower (pathSuffix file_path)
  if extension = ".txt" then some DocumentType.TXT
  else if extension = ".pdf" then some DocumentType.PDF
  else if extension = ".zip" then some DocumentType.ZIP
  else none

/-- `_create_signature`: RSA-PSS over the UTF-8 bytes of the hex hash. -/
def createSignature (signerKey : PrivKey) (document_hash : String) : RsaSig :=
  rsaPssSign signerKey (strBytes document_hash)

/-- `DocumentSigner.sign_document(request)`.  The signer holds a loaded
private key (construction fails otherwise), `now` stands for
`datetime.now()`, and the returned pair is the result together with the
filesystem after the sidecar write. -/
def signDocument (signerKey : PrivKey) (now : Nat) (fs : FS)
    (request : SignatureRequest) : SignatureResult × FS :=
  match fs request.document_path with
  | none =>
      (SignatureResult.mk false "Documento no encontrado" none none none none
        (some ("El archivo " ++ request.document_path ++ " no existe")), fs)
  | some fd =>
      match detectDocumentType request.document_path with
      | none =>
          (SignatureResult.mk false "Tipo de documento no soportado" none none none none
            (some "Solo se soportan archivos .txt, .pdf y .zip"), fs)
      | some doc_type =>
          let document_hash := calculateDocumentHash fd
          let metadata := SignatureMetadata.mk request.signer_name request.signer_email now
            document_hash "RSA-PSS with SHA-256"
            (getPublicKeyFingerprint (some signerKey.pub))
            (("document_type", doc_type.value)
              :: ("document_name", pathName request.document_path)
              :: request.additional_info)
          let signature_data := createSignature signerKey document_hash
          let signature_file_path :=
            match request.output_path with
            | some p => p
            | none => getSignatureFilePath request.document_path
          let fs' := FS.update fs signature_file_path
            (FileData.sigFile (SigPackage.mk signature_data metadata))
          (SignatureResult.mk true "Documento firmado exitosamente"
            (some SignatureStatus.VALID) (some metadata) (some signature_data)
            (some signature_file_path) none, fs')

/-- `DocumentSigner.sign_batch(document_paths, signer_name, signer_email)`:
sign each path with a fresh request sharing the identity, accumulating the
results in input order and threading the filesystem through the writes. -/
def signBatch (signerKey : PrivKey) (now : Nat) (name email : String) :
    FS → List String → List SignatureResult × FS
  | fs, [] => ([], fs)
  | fs, p :: rest =>
      let step := signDocument signerKey now fs (SignatureRequest.mk p name email none [])
      let remaining := signBatch signerKey now name email step.2 rest
      (step.1 :: remaining.1, remaining.2)

/-! ## SignatureVerifier (`signature_verifier.py`) -/

/-- `SignatureVerifier.__init__(public_key_path)`: the initial key-manager
state — the key loaded from the given path when the path is supplied, the
file exists, and it parses as a PEM public key; otherwise no key. -/
def verifierInit (fs : FS) (public_key_path : Option String) : Option PubKey :=
  match public_key_path with
  | none => none
  | some p =>
      match fs p with
      | some (.pubKeyPem k) => some k
      | some _ => none
      | none => none

/-- `_load_signature_file`: a parsed sidecar package, or `None` when the
file is missing or does not parse as one. -/
def loadSignatureFile (fs : FS) (signature_file_path : String) : Option SigPackage :=
  match fs signature_file_path with
  | some (.sigFile pkg) => some pkg
  | some _ => none
  | none => none

/-- `_verify_signature`: RSA-PSS verification of the signature against the
UTF-8 bytes of the hash string, `False` on `InvalidSignature`. -/
def verifySignature (pub : PubKey) (document_hash : String) (signature_data : RsaSig) : Bool :=
  rsaPssVerify pub signature_data (strBytes document_hash)

/-- The tail of `verify_document` from the point where a public key has
been resolved (source lines 182–221): the missing-key check, then the hash
comparison, then the cryptographic verification. -/
def verifyAfterKey (key : Option PubKey) (docFd : FileData) (pkg : SigPackage) :
    SignatureResult × Option PubKey :=
  match key with
  | none =>
      (SignatureResult.mk false "No hay clave pública disponible"
        (some SignatureStatus.KEY_MISMATCH) none none none
        (some "Se requiere una clave pública para verificar la firma"), none)
  | some pub =>
      let current_hash := calculateDocumentHash docFd
      if current_hash ≠ pkg.metadata.document_hash then
        (SignatureResult.mk false "El documento ha sido modificado después de la firma"
          (some SignatureStatus.TAMPERED) (some pkg.metadata) none none
          (some "El hash del documento no coincide con el hash firmado"), some pub)
      else if verifySignature pub current_hash pkg.signature then
        (SignatureResult.mk true "Firma válida - El documento es auténtico y no ha sido modificado"
          (some SignatureStatus.VALID) (some pkg.metadata) none none none, some pub)
      else
        (SignatureResult.mk false "Firma inválida"
          (some SignatureStatus.INVALID) (some pkg.metadata) none none
          (some "La firma digital no pudo ser verificada"), some pub)

/-- The key-resolution step of `verify_document` (source lines 172–189): an
explicit `public_key_path` on the request is loaded into the key manager —
replacing the current key — with a load failure terminal at
`KEY_MISMATCH`; then the tail continues with the resolved key. -/
def verifyResolveKey (key : Option PubKey) (fs : FS) (request : VerificationRequest)
    (docFd : FileData) (pkg : SigPackage) : SignatureResult × Option PubKey :=
  match request.public_key_path with
  | some p =>
      match loadPublicKey key fs p with
      | (none, key') =>
          (SignatureResult.mk false "No se pudo cargar la clave pública"
            (some SignatureStatus.KEY_MISMATCH) none none none
            (some "Error al cargar la clave pública proporcionada"), key')
      | (some _, key') => verifyAfterKey key' docFd pkg
  | none => verifyAfterKey key docFd pkg

/-- `SignatureVerifier.verify_document(request)`: the result together with
the verifier's key-manager state afterwards. -/
def verifyDocument (key : Option PubKey) (fs : FS) (request : VerificationRequest) :
    SignatureResult × Option PubKey :=
  match fs request.signed_document_path with
  | none =>
      (SignatureResult.mk false "Documento firmado no encontrado"
        (some SignatureStatus.INVALID) none none none
        (some ("El archivo " ++ request.signed_document_path ++ " no existe")), key)
  | some _ =>
      let document_path :=
        if strEndsWith request.signed_document_path ".sig" then
          match request.original_document_path with
          | some o => o
          | none => strDropRight request.signed_document_path 4
        else request.signed_document_path
      let signature_file_path :=
        if strEndsWith request.signed_document_path ".sig" then
          request.signed_document_path
        else request.signed_document_path ++ ".sig"
      match fs document_path with
      | none =>
          (SignatureResult.mk false "Documento original no encontrado"
            (some SignatureStatus.INVALID) none none none
            (some ("El archivo " ++ document_path ++ " no existe")), key)
      | some docFd =>
          match loadSignatureFile fs signature_file_path with
          | none =>
              (SignatureResult.mk false "No se pudo cargar el archivo de firma"
                (some SignatureStatus.INVALID) none none none
                (some "El archivo de firma es inválido o está corrupto"), key)
          | some pkg => verifyResolveKey key fs request docFd pkg

/-- `SignatureVerifier.verify_batch(document_paths)`: verify each path with
a fresh request, in order, threading the key-manager state. -/
def verifyBatch (fs : FS) :
    Option PubKey → List String → List SignatureResult × Option PubKey
  | key, [] => ([], key)
  | key, p :: rest =>
      let step := verifyDocument key fs (VerificationRequest.mk p none none)
      let remaining := verifyBatch fs step.2 rest
      (step.1 :: remaining.1, remaining.2)

/-! ## Concrete fixtures used by the witnesses -/

/-- A concrete key pair, identified by a few DER bytes. -/
def wKey : PrivKey := PrivKey.mk [48, 130, 1, 34, 3, 7]

/-- A different key pair. -/
def wKey2 : PrivKey := PrivKey.mk [48, 130, 1, 34, 3, 8]

/-- A filesystem holding the document of the design document's concrete
scenario: `doc.txt` with content `"abc"`. -/
def wfs : FS :=
  fun p => if p = "doc.txt" then some (FileData.bytes (strBytes "abc")) else none

/-- A filesystem with a `.txt` document, a missing path, an unsupported
extension, and a PEM public key file. -/
def wfs2 : FS :=
  fun p =>
    if p = "a.txt" then some (FileData.bytes (strBytes "abc"))
    else if p = "c.txt" then some (FileData.bytes (strBytes "hello"))
    else if p = "doc.exe" then some (FileData.bytes [1, 2, 3])
    else if p = "key2.pem" then some (FileData.pubKeyPem wKey2.pub)
    else none

/-! ## Helper lemmas -/

/-- Updating a path and reading it back. -/
theorem fs_update_eq (fs : FS) (p : String) (d : FileData) :
    FS.update fs p d p = some d := by
  simp [FS.update]

/-- Updating one path leaves every other path unchanged. -/
theorem fs_update_ne (fs : FS) (p q : String) (d : FileData) (h : q ≠ p) :
    FS.update fs p d q = fs q := by
  simp [FS.update, h]

/-- A path never equals itself with `".sig"` appended. -/
theorem string_ne_append_sig (s : String) : s ≠ s ++ ".sig" := by
  intro h
  have hl := congrArg String.length h
  have h4 : String.length ".sig" = 4 := rfl
  rw [String.length_append, h4] at hl
  omega

/-! ## C1: sign-then-verify round trip -/

/-- **C1.** For every document with a supported extension whose content is
unchanged between signing and verification, and every signer identity,
signing with `sign_document` and verifying with `verify_document` using the
same key pair succeeds on both sides: the sign result has `success=True`
and `status=VALID`, the verify result has `success=True` and
`status=VALID`, and the `document_hash` in the verification result's
metadata equals the `document_hash` recorded at sign time. -/
theorem sign_then_verify_roundtrip
    (signerKey : PrivKey) (now : Nat) (fs : FS)
    (path name email : String) (info : List (String × String)) (fd : FileData)
    (hdoc : fs path = some fd)
    (hdt : (detectDocumentType path).isSome = true)
    (hsig : strEndsWith path ".sig" = false) :
    (signDocument signerKey now fs (SignatureRequest.mk path name email none info)).1.success
        = true ∧
    (signDocument signerKey now fs (SignatureRequest.mk path name email none info)).1.status
        = some SignatureStatus.VALID ∧
    (verifyDocument (some signerKey.pub)
        (signDocument signerKey now fs (SignatureRequest.mk path name email none info)).2
        (VerificationRequest.mk path none none)).1.success = true ∧
    (verifyDocument (some signerKey.pub)
        (signDocument signerKey now fs (SignatureRequest.mk path name email none info)).2
        (VerificationRequest.mk path none none)).1.status = some SignatureStatus.VALID ∧
    ∃ m1 m2,
      (signDocument signerKey now fs (SignatureRequest.mk path name email none info)).1.metadata
          = some m1 ∧
      (verifyDocument (some signerKey.pub)
          (signDocument signerKey now fs (SignatureRequest.mk path name email none info)).2
          (VerificationRequest.mk path none none)).1.metadata = some m2 ∧
      m2.document_hash = m1.document_hash := by
  obtain ⟨dt, hdt'⟩ := Option.isSome_iff_exists.mp hdt
  have hne := string_ne_append_sig path
  simp only [signDocument, hdoc, hdt', getSignatureFilePath]
  simp only [verifyDocument, fs_update_ne _ _ _ _ hne, hdoc, hsig, Bool.false_eq_true,
    if_false, loadSignatureFile, fs_update_eq, verifyResolveKey, verifyAfterKey,
    calculateDocumentHash, ne_eq, not_true_eq_false, if_false, ite_false,
    verifySignature, createSignature, rsaPssSign, rsaPssVerify, and_self, if_true, ite_true]
  exact ⟨trivial, trivial, trivial, trivial, _, _, rfl, rfl, rfl⟩

/-- Witness for C1 at the design document's concrete scenario: document
`doc.txt` with bytes `"abc"`, signer `("Ada", "ada@example.com")`. -/
theorem sign_then_verify_roundtrip_witness :
    (signDocument wKey 5 wfs (SignatureRequest.mk "doc.txt" "Ada" "ada@example.com" none [])).1.success
        = true ∧
    (signDocument wKey 5 wfs (SignatureRequest.mk "doc.txt" "Ada" "ada@example.com" none [])).1.status
        = some SignatureStatus.VALID ∧
    (verifyDocument (some wKey.pub)
        (signDocument wKey 5 wfs (SignatureRequest.mk "doc.txt" "Ada" "ada@example.com" none [])).2
        (VerificationRequest.mk "doc.txt" none none)).1.success = true ∧
    (verifyDocument (some wKey.pub)
        (signDocument wKey 5 wfs (SignatureRequest.mk "doc.txt" "Ada" "ada@example.com" none [])).2
        (VerificationRequest.mk "doc.txt" none none)).1.status = some SignatureStatus.VALID ∧
    ∃ m1 m2,
      (signDocument wKey 5 wfs (SignatureRequest.mk "doc.txt" "Ada" "ada@example.com" none [])).1.metadata
          = some m1 ∧
      (verifyDocument (some wKey.pub)
          (signDocument wKey 5 wfs (SignatureRequest.mk "doc.txt" "Ada" "ada@example.com" none [])).2
          (VerificationRequest.mk "doc.txt" none none)).1.metadata = some m2 ∧
      m2.document_hash = m1.document_hash :=
  sign_then_verify_roundtrip wKey 5 wfs "doc.txt" "Ada" "ada@example.com" []
    (FileData.bytes (strBytes "abc")) (by decide) (by decide) (by decide)

/-! ## C2: tamper detection -/

/-- **C2.** Signing a document and then modifying its content before
verification — any change that makes its SHA-256 differ from the recorded
hash — yields `status=TAMPERED` (with `success=False`) when verified with
the signer's key, and for *every* verifier key state the result is never
`VALID` and never `INVALID`. -/
theorem tampering_yields_tampered
    (signerKey : PrivKey) (now : Nat) (fs : FS)
    (path name email : String) (info : List (String × String)) (fd fd' : FileData)
    (hdoc : fs path = some fd)
    (hdt : (detectDocumentType path).isSome = true)
    (hsig : strEndsWith path ".sig" = false)
    (hneq : sha256hex (FileData.toBytes fd') ≠ sha256hex (FileData.toBytes fd)) :
    (verifyDocument (some signerKey.pub)
        (FS.update
          (signDocument signerKey now fs (SignatureRequest.mk path name email none info)).2
          path fd')
        (VerificationRequest.mk path none none)).1.status = some SignatureStatus.TAMPERED ∧
    (verifyDocument (some signerKey.pub)
        (FS.update
          (signDocument signerKey now fs (SignatureRequest.mk path name email none info)).2
          path fd')
        (VerificationRequest.mk path none none)).1.success = false ∧
    ∀ key0 : Option PubKey,
      (verifyDocument key0
          (FS.update
            (signDocument signerKey now fs (SignatureRequest.mk path name email none info)).2
            path fd')
          (VerificationRequest.mk path none none)).1.status ≠ some SignatureStatus.VALID ∧
      (verifyDocument key0
          (FS.update
            (signDocument signerKey now fs (SignatureRequest.mk path name email none info)).2
            path fd')
          (VerificationRequest.mk path none none)).1.status ≠ some SignatureStatus.INVALID := by
  obtain ⟨dt, hdt'⟩ := Option.isSome_iff_exists.mp hdt
  have hne := string_ne_append_sig path
  simp only [signDocument, hdoc, hdt', getSignatureFilePath, verifyDocument,
    fs_update_eq, fs_update_ne _ _ _ _ hne, fs_update_ne _ _ _ _ (Ne.symm hne),
    hsig, Bool.false_eq_true, if_false, ite_false, loadSignatureFile,
    verifyResolveKey, verifyAfterKey, calculateDocumentHash, hneq,
    ne_eq, not_false_eq_true, if_true, ite_true]
  refine ⟨trivial, trivial, ?_⟩
  intro key0
  cases key0 with
  | none => simp [verifyAfterKey]
  | some k =>
      simp only [verifyAfterKey, calculateDocumentHash, hneq, ne_eq,
        not_false_eq_true, if_true, ite_true]
      simp

/-- Witness for C2 at the design document's concrete scenario: sign
`doc.txt` containing `"abc"`, append `"x"`, verify. -/
theorem tampering_yields_tampered_witness :
    (verifyDocument (some wKey.pub)
        (FS.update
          (signDocument wKey 5 wfs (SignatureRequest.mk "doc.txt" "Ada" "ada@example.com" none [])).2
          "doc.txt" (FileData.bytes (strBytes "abcx")))
        (VerificationRequest.mk "doc.txt" none none)).1.status = some SignatureStatus.TAMPERED ∧
    (verifyDocument (some wKey.pub)
        (FS.update
          (signDocument wKey 5 wfs (SignatureRequest.mk "doc.txt" "Ada" "ada@example.com" none [])).2
          "doc.txt" (FileData.bytes (strBytes "abcx")))
        (VerificationRequest.mk "doc.txt" none none)).1.success = false ∧
    ∀ key0 : Option PubKey,
      (verifyDocument key0
          (FS.update
            (signDocument wKey 5 wfs (SignatureRequest.mk "doc.txt" "Ada" "ada@example.com" none [])).2
            "doc.txt" (FileData.bytes (strBytes "abcx")))
          (VerificationRequest.mk "doc.txt" none none)).1.status ≠ some SignatureStatus.VALID ∧
      (verifyDocument key0
          (FS.update
            (signDocument wKey 5 wfs (SignatureRequest.mk "doc.txt" "Ada" "ada@example.com" none [])).2
            "doc.txt" (FileData.bytes (strBytes "abcx")))
          (VerificationRequest.mk "doc.txt" none none)).1.status ≠ some SignatureStatus.INVALID :=
  tampering_yields_tampered wKey 5 wfs "doc.txt" "Ada" "ada@example.com" []
    (FileData.bytes (strBytes "abc")) (FileData.bytes (strBytes "abcx"))
    (by decide) (by decide) (by decide) (by decide)

/-! ## C3: ordering of the hash check and key resolution -/

/-- A sidecar package whose recorded hash matches no document (the hash
field is not even a SHA-256 hex digest). -/
def wBadPkg : SigPackage :=
  SigPackage.mk (RsaSig.mk wKey.pub (strBytes "deadbeef"))
    (SignatureMetadata.mk "Ada" "ada@example.com" 5 "deadbeef" "RSA-PSS with SHA-256" none [])

/-- A filesystem with a document whose sidecar records a mismatching hash,
plus a loadable PEM public key file. -/
def wfs3 : FS :=
  fun p =>
    if p = "d.txt" then some (FileData.bytes (strBytes "abc"))
    else if p = "d.txt.sig" then some (FileData.sigFile wBadPkg)
    else if p = "key2.pem" then some (FileData.pubKeyPem wKey2.pub)
    else none

/-- **C3 counterexample.** A verification request on a document whose
recomputed SHA-256 differs from the recorded hash, with no usable public
key, returns `KEY_MISMATCH` — not the terminal `TAMPERED` the claim
requires — so the hash check does *not* precede key resolution, and
`KEY_MISMATCH` is returned even though the hash check would fail. -/
theorem hash_check_order_counterexample :
    sha256hex (FileData.toBytes (FileData.bytes (strBytes "abc")))
        ≠ wBadPkg.metadata.document_hash ∧
    (verifyDocument none wfs3 (VerificationRequest.mk "d.txt" none none)).1.status
        = some SignatureStatus.KEY_MISMATCH ∧
    (verifyDocument none wfs3 (VerificationRequest.mk "d.txt" none none)).1.status
        ≠ some SignatureStatus.TAMPERED := by
  decide

/-- **C3 (amended).** In `verify_document` the key-resolution step precedes
the hash check: when the recomputed document SHA-256 differs from the hash
recorded in the sidecar metadata, the result is `KEY_MISMATCH` if no usable
public key is available, and terminal `TAMPERED` whenever a key is
available — and in the tampered case the cryptographic verify step is
skipped entirely: the result does not depend on the stored signature
bytes. -/
theorem key_resolution_precedes_hash_check
    (fs : FS) (path : String) (fd : FileData) (pkg : SigPackage)
    (hdoc : fs path = some fd)
    (hnsig : strEndsWith path ".sig" = false)
    (hsig : fs (path ++ ".sig") = some (FileData.sigFile pkg))
    (hmis : sha256hex (FileData.toBytes fd) ≠ pkg.metadata.document_hash) :
    (verifyDocument none fs (VerificationRequest.mk path none none)).1.status
        = some SignatureStatus.KEY_MISMATCH ∧
    (∀ k : PubKey,
      (verifyDocument (some k) fs (VerificationRequest.mk path none none)).1.status
        = some SignatureStatus.TAMPERED) ∧
    (∀ k : PubKey, ∀ s : RsaSig,
      (verifyDocument (some k)
          (FS.update fs (path ++ ".sig") (FileData.sigFile (SigPackage.mk s pkg.metadata)))
          (VerificationRequest.mk path none none)).1
        = (verifyDocument (some k) fs (VerificationRequest.mk path none none)).1) := by
  have hne := string_ne_append_sig path
  refine ⟨?_, ?_, ?_⟩
  · simp [verifyDocument, hdoc, hnsig, loadSignatureFile, hsig, verifyResolveKey,
      verifyAfterKey]
  · intro k
    simp [verifyDocument, hdoc, hnsig, loadSignatureFile, hsig, verifyResolveKey,
      verifyAfterKey, calculateDocumentHash, hmis]
  · intro k s
    simp [verifyDocument, fs_update_ne _ _ _ _ hne, hdoc, hnsig, loadSignatureFile,
      fs_update_eq, hsig, verifyResolveKey, verifyAfterKey, calculateDocumentHash, hmis]

/-- Witness for the amended C3 at the concrete mismatching fixture. -/
theorem key_resolution_precedes_hash_check_witness :
    (verifyDocument none wfs3 (VerificationRequest.mk "d.txt" none none)).1.status
        = some SignatureStatus.KEY_MISMATCH ∧
    (verifyDocument (some wKey.pub) wfs3 (VerificationRequest.mk "d.txt" none none)).1.status
        = some SignatureStatus.TAMPERED ∧
    (verifyDocument (some wKey.pub)
        (FS.update wfs3 ("d.txt" ++ ".sig")
          (FileData.sigFile (SigPackage.mk (RsaSig.mk [7] [7]) wBadPkg.metadata)))
        (VerificationRequest.mk "d.txt" none none)).1
      = (verifyDocument (some wKey.pub) wfs3 (VerificationRequest.mk "d.txt" none none)).1 :=
  ⟨(key_resolution_precedes_hash_check wfs3 "d.txt" (FileData.bytes (strBytes "abc")) wBadPkg
      (by decide) (by decide) (by decide) (by decide)).1,
   (key_resolution_precedes_hash_check wfs3 "d.txt" (FileData.bytes (strBytes "abc")) wBadPkg
      (by decide) (by decide) (by decide) (by decide)).2.1 wKey.pub,
   (key_resolution_precedes_hash_check wfs3 "d.txt" (FileData.bytes (strBytes "abc")) wBadPkg
      (by decide) (by decide) (by decide) (by decide)).2.2 wKey.pub (RsaSig.mk [7] [7])⟩

/-! ## C4: the public-key fingerprint -/

/-- **C4 counterexample.** The fingerprint of a loaded public key is *not*
the hex SHA-256 digest of the DER-encoded SubjectPublicKeyInfo bytes: the
source serializes the key with `Encoding.PEM` before hashing, and on a
concrete key the two digests differ. -/
theorem fingerprint_der_counterexample :
    getPublicKeyFingerprint (some wKey.pub) ≠ some (sha256hex wKey.pub) ∧
    getPublicKeyFingerprint (some wKey.pub) ≠ specFingerprintDER (some wKey.pub) := by
  decide

/-- **C4 (amended).** `get_public_key_fingerprint` returns `None` when no
public key is loaded, and otherwise the hex SHA-256 digest of the
*PEM-encoded* SubjectPublicKeyInfo serialization of the loaded key;
identical public key material always yields the identical fingerprint. -/
theorem fingerprint_is_pem_hash :
    getPublicKeyFingerprint none = none ∧
    (∀ k : PubKey, getPublicKeyFingerprint (some k) = some (sha256hex (pemEncodeSPKI k))) ∧
    (∀ k k' : PubKey, k = k' →
      getPublicKeyFingerprint (some k) = getPublicKeyFingerprint (some k')) := by
  refine ⟨rfl, fun k => rfl, fun k k' h => by rw [h]⟩

/-- Witness for the amended C4 at a concrete key. -/
theorem fingerprint_is_pem_hash_witness :
    getPublicKeyFingerprint (some wKey.pub) = some (sha256hex (pemEncodeSPKI wKey.pub)) ∧
    getPublicKeyFingerprint (some wKey.pub)
      = getPublicKeyFingerprint (some [48, 130, 1, 34, 3, 7]) :=
  ⟨fingerprint_is_pem_hash.2.1 wKey.pub,
   fingerprint_is_pem_hash.2.2 wKey.pub [48, 130, 1, 34, 3, 7] (by decide)⟩

/-! ## Shape lemmas shared by the error-handling and status claims -/

/-- The facts common to every result `verify_document` can return: a
failure carries an error detail and a nonempty message, and the status is
one of `VALID`, `INVALID`, `TAMPERED`, `KEY_MISMATCH`. -/
def verifyResultOk (r : SignatureResult) : Prop :=
  (r.success = false → r.error ≠ none ∧ r.message ≠ "") ∧
  (r.status = some SignatureStatus.VALID ∨ r.status = some SignatureStatus.INVALID ∨
   r.status = some SignatureStatus.TAMPERED ∨ r.status = some SignatureStatus.KEY_MISMATCH)

/-- The facts common to every result `sign_document` can return: a failure
carries an error detail, a nonempty message and *no* status; a success
carries status `VALID` and no error. -/
def signResultOk (r : SignatureResult) : Prop :=
  (r.success = false → r.error ≠ none ∧ r.message ≠ "" ∧ r.status = none) ∧
  (r.success = true → r.status = some SignatureStatus.VALID ∧ r.error = none)

/-- Every branch of the post-key-resolution tail satisfies `verifyResultOk`. -/
theorem verifyAfterKey_ok (key : Option PubKey) (fd : FileData) (pkg : SigPackage) :
    verifyResultOk (verifyAfterKey key fd pkg).1 := by
  cases key with
  | none => simp [verifyAfterKey, verifyResultOk]
  | some k =>
      simp only [verifyAfterKey, verifyResultOk]
      split
      · simp
      · split <;> simp

/-- Every branch of the key-resolution step satisfies `verifyResultOk`. -/
theorem verifyResolveKey_ok (key : Option PubKey) (fs : FS) (req : VerificationRequest)
    (fd : FileData) (pkg : SigPackage) :
    verifyResultOk (verifyResolveKey key fs req fd pkg).1 := by
  simp only [verifyResolveKey]
  split
  · split
    · simp [verifyResultOk]
    · exact verifyAfterKey_ok _ _ _
  · exact verifyAfterKey_ok _ _ _

/-- Every branch of `verify_document` satisfies `verifyResultOk`. -/
theorem verifyDocument_ok (key : Option PubKey) (fs : FS) (req : VerificationRequest) :
    verifyResultOk (verifyDocument key fs req).1 := by
  simp only [verifyDocument]
  split
  · simp [verifyResultOk]
  · split
    · simp [verifyResultOk]
    · split
      · simp [verifyResultOk]
      · exact verifyResolveKey_ok _ _ _ _ _

/-- Every branch of `sign_document` satisfies `signResultOk`. -/
theorem signDocument_ok (signerKey : PrivKey) (now : Nat) (fs : FS)
    (req : SignatureRequest) :
    signResultOk (signDocument signerKey now fs req).1 := by
  simp only [signDocument]
  split
  · simp [signResultOk]
  · split <;> simp [signResultOk]

/-! ## C5: failures are structured results, never uncaught exceptions -/

/-- **C5.** For every input, `sign_document` and `verify_document` return a
structured `SignatureResult`; whenever the result reports failure
(`success=False`) it carries a human-readable message and an error detail.
(Both operations are total functions of their inputs in this embedding —
the `try/except` wrappers of the source are modelled by the functions being
defined on every input — so no exception reaches the caller.) -/
theorem no_uncaught_failures
    (signerKey : PrivKey) (now : Nat) (fs : FS) (req : SignatureRequest)
    (key : Option PubKey) (vreq : VerificationRequest) :
    ((signDocument signerKey now fs req).1.success = false →
      (signDocument signerKey now fs req).1.error ≠ none ∧
      (signDocument signerKey now fs req).1.message ≠ "") ∧
    ((verifyDocument key fs vreq).1.success = false →
      (verifyDocument key fs vreq).1.error ≠ none ∧
      (verifyDocument key fs vreq).1.message ≠ "") :=
  ⟨fun h => ⟨((signDocument_ok signerKey now fs req).1 h).1,
             ((signDocument_ok signerKey now fs req).1 h).2.1⟩,
   fun h => (verifyDocument_ok key fs vreq).1 h⟩

/-- Witness for C5 at concrete failing inputs (a missing document on the
sign side, a missing signed document on the verify side). -/
theorem no_uncaught_failures_witness :
    (signDocument wKey 5 wfs (SignatureRequest.mk "missing.txt" "Ada" "ada@example.com" none [])).1.success
        = false ∧
    (signDocument wKey 5 wfs (SignatureRequest.mk "missing.txt" "Ada" "ada@example.com" none [])).1.error
        ≠ none ∧
    (verifyDocument none wfs (VerificationRequest.mk "missing.txt" none none)).1.success = false ∧
    (verifyDocument none wfs (VerificationRequest.mk "missing.txt" none none)).1.error ≠ none :=
  ⟨by decide,
   ((no_uncaught_failures wKey 5 wfs
      (SignatureRequest.mk "missing.txt" "Ada" "ada@example.com" none []) none
      (VerificationRequest.mk "missing.txt" none none)).1 (by decide)).1,
   by decide,
   ((no_uncaught_failures wKey 5 wfs
      (SignatureRequest.mk "missing.txt" "Ada" "ada@example.com" none []) none
      (VerificationRequest.mk "missing.txt" none none)).2 (by decide)).1⟩

/-! ## C6: unsupported extensions are rejected before hashing -/

/-- **C6.** Signing an existing document whose path has an extension
outside txt/pdf/zip fails with the unsupported-type error, without status
or metadata, leaves the filesystem untouched, and never invokes the
document-hash routine: the result is independent of the document's
content. -/
theorem unsupported_extension_rejected
    (signerKey : PrivKey) (now : Nat) (fs : FS) (req : SignatureRequest) (fd : FileData)
    (hdoc : fs req.document_path = some fd)
    (hbad : detectDocumentType req.document_path = none) :
    (signDocument signerKey now fs req).1.success = false ∧
    (signDocument signerKey now fs req).1.message = "Tipo de documento no soportado" ∧
    (signDocument signerKey now fs req).1.error
        = some "Solo se soportan archivos .txt, .pdf y .zip" ∧
    (signDocument signerKey now fs req).1.metadata = none ∧
    (signDocument signerKey now fs req).2 = fs ∧
    ∀ fd' : FileData,
      (signDocument signerKey now (FS.update fs req.document_path fd') req).1
        = (signDocument signerKey now fs req).1 := by
  simp only [signDocument, hdoc, hbad]
  refine ⟨trivial, trivial, trivial, trivial, trivial, ?_⟩
  intro fd'
  simp only [signDocument, fs_update_eq, hbad]

/-- Witness for C6: an existing `doc.exe` document. -/
theorem unsupported_extension_rejected_witness :
    (signDocument wKey 5 wfs2 (SignatureRequest.mk "doc.exe" "Ada" "ada@example.com" none [])).1.success
        = false ∧
    (signDocument wKey 5 wfs2 (SignatureRequest.mk "doc.exe" "Ada" "ada@example.com" none [])).1.message
        = "Tipo de documento no soportado" ∧
    (signDocument wKey 5 wfs2 (SignatureRequest.mk "doc.exe" "Ada" "ada@example.com" none [])).1.error
        = some "Solo se soportan archivos .txt, .pdf y .zip" ∧
    (signDocument wKey 5 wfs2 (SignatureRequest.mk "doc.exe" "Ada" "ada@example.com" none [])).1.metadata
        = none ∧
    (signDocument wKey 5 wfs2 (SignatureRequest.mk "doc.exe" "Ada" "ada@example.com" none [])).2
        = wfs2 ∧
    ∀ fd' : FileData,
      (signDocument wKey 5 (FS.update wfs2 "doc.exe" fd')
          (SignatureRequest.mk "doc.exe" "Ada" "ada@example.com" none [])).1
        = (signDocument wKey 5 wfs2
            (SignatureRequest.mk "doc.exe" "Ada" "ada@example.com" none [])).1 :=
  unsupported_extension_rejected wKey 5 wfs2
    (SignatureRequest.mk "doc.exe" "Ada" "ada@example.com" none [])
    (FileData.bytes [1, 2, 3]) (by decide) (by decide)

/-! ## C7: batch signing is ordered and independent -/

/-- Junk default used only for positional access with `List.getD`. -/
def dRes : SignatureResult := SignatureResult.mk false "" none none none none none

/-- **C7.** `sign_batch` returns exactly one result per input path; the
`i`-th result is exactly `sign_document` applied to the `i`-th path in the
filesystem state left behind by the preceding paths (so results preserve
input order and each path is processed independently); and a failing
`sign_document` call leaves the filesystem unchanged, so one path's
failure cannot alter the processing of the others. -/
theorem sign_batch_order_and_independence
    (signerKey : PrivKey) (now : Nat) (name email : String) (fs : FS)
    (paths : List String) :
    (signBatch signerKey now name email fs paths).1.length = paths.length ∧
    (∀ i : Nat, i < paths.length →
      (signBatch signerKey now name email fs paths).1.getD i dRes
        = (signDocument signerKey now
            (signBatch signerKey now name email fs (paths.take i)).2
            (SignatureRequest.mk (paths.getD i "") name email none [])).1) ∧
    (∀ fs0 : FS, ∀ req : SignatureRequest,
      (signDocument signerKey now fs0 req).1.success = false →
      (signDocument signerKey now fs0 req).2 = fs0) := by
  refine ⟨?_, ?_, ?_⟩
  · induction paths generalizing fs with
    | nil => simp [signBatch]
    | cons p rest ih => simp [signBatch, ih]
  · induction paths generalizing fs with
    | nil =>
        intro i hi
        simp at hi
    | cons p rest ih =>
        intro i hi
        cases i with
        | zero => simp [signBatch]
        | succ j =>
            simp only [signBatch, List.getD_cons_succ, List.take_succ_cons]
            exact ih _ j (by simp only [List.length_cons] at hi; omega)
  · intro fs0 req
    simp only [signDocument]
    split
    · simp
    · split
      · simp
      · intro h
        simp at h

/-- Witness for C7 at the design document's batch scenario: paths
`[a.txt, missing.txt, c.txt]` where the middle file does not exist — three
results in input order, the middle one the failure of signing the missing
path, the failing path leaving the filesystem unchanged, and the first and
third succeeding with `VALID` while the middle fails. -/
theorem sign_batch_order_and_independence_witness :
    (signBatch wKey 5 "Ada" "ada@example.com" wfs2 ["a.txt", "missing.txt", "c.txt"]).1.length
        = (["a.txt", "missing.txt", "c.txt"] : List String).length ∧
    (signBatch wKey 5 "Ada" "ada@example.com" wfs2 ["a.txt", "missing.txt", "c.txt"]).1.getD 1 dRes
        = (signDocument wKey 5
            (signBatch wKey 5 "Ada" "ada@example.com" wfs2
              (["a.txt", "missing.txt", "c.txt"].take 1)).2
            (SignatureRequest.mk (["a.txt", "missing.txt", "c.txt"].getD 1 "")
              "Ada" "ada@example.com" none [])).1 ∧
    (signDocument wKey 5 wfs2
        (SignatureRequest.mk "missing.txt" "Ada" "ada@example.com" none [])).2 = wfs2 ∧
    ((signBatch wKey 5 "Ada" "ada@example.com" wfs2 ["a.txt", "missing.txt", "c.txt"]).1.getD 0 dRes).status
        = some SignatureStatus.VALID ∧
    ((signBatch wKey 5 "Ada" "ada@example.com" wfs2 ["a.txt", "missing.txt", "c.txt"]).1.getD 1 dRes).success
        = false ∧
    ((signBatch wKey 5 "Ada" "ada@example.com" wfs2 ["a.txt", "missing.txt", "c.txt"]).1.getD 2 dRes).status
        = some SignatureStatus.VALID :=
  ⟨(sign_batch_order_and_independence wKey 5 "Ada" "ada@example.com" wfs2
      ["a.txt", "missing.txt", "c.txt"]).1,
   (sign_batch_order_and_independence wKey 5 "Ada" "ada@example.com" wfs2
      ["a.txt", "missing.txt", "c.txt"]).2.1 1 (by decide),
   (sign_batch_order_and_independence wKey 5 "Ada" "ada@example.com" wfs2
      ["a.txt", "missing.txt", "c.txt"]).2.2 wfs2
      (SignatureRequest.mk "missing.txt" "Ada" "ada@example.com" none []) (by decide),
   by decide, by decide, by decide⟩

/-! ## C8: which statuses results carry -/

/-- **C8 counterexample.** Not every result of `sign_document` carries a
status from the closed set: the failure result for a missing document
carries *no* status at all (`status=None`). -/
theorem status_closed_set_counterexample :
    (signDocument wKey 5 wfs
        (SignatureRequest.mk "missing.txt" "Ada" "ada@example.com" none [])).1.success = false ∧
    (signDocument wKey 5 wfs
        (SignatureRequest.mk "missing.txt" "Ada" "ada@example.com" none [])).1.status = none := by
  decide

/-- **C8 (amended).** Every result of `verify_document` carries a status
drawn from the closed set — in fact from {VALID, INVALID, TAMPERED,
KEY_MISMATCH} — including all failure results; `sign_document` results
carry status `VALID` exactly on success and *no* status (`None`) on
failure (missing document, unsupported type, caught exception). -/
theorem status_discipline
    (signerKey : PrivKey) (now : Nat) (fs : FS) (req : SignatureRequest)
    (key : Option PubKey) (vreq : VerificationRequest) :
    ((verifyDocument key fs vreq).1.status = some SignatureStatus.VALID ∨
     (verifyDocument key fs vreq).1.status = some SignatureStatus.INVALID ∨
     (verifyDocument key fs vreq).1.status = some SignatureStatus.TAMPERED ∨
     (verifyDocument key fs vreq).1.status = some SignatureStatus.KEY_MISMATCH) ∧
    ((signDocument signerKey now fs req).1.success = true →
      (signDocument signerKey now fs req).1.status = some SignatureStatus.VALID) ∧
    ((signDocument signerKey now fs req).1.success = false →
      (signDocument signerKey now fs req).1.status = none) :=
  ⟨(verifyDocument_ok key fs vreq).2,
   fun h => ((signDocument_ok signerKey now fs req).2 h).1,
   fun h => ((signDocument_ok signerKey now fs req).1 h).2.2⟩

/-- Witness for the amended C8 at concrete inputs: a verify call on a
missing document (status from the closed set) and a sign call on a missing
document (no status). -/
theorem status_discipline_witness :
    ((verifyDocument none wfs (VerificationRequest.mk "missing.txt" none none)).1.status
        = some SignatureStatus.VALID ∨
     (verifyDocument none wfs (VerificationRequest.mk "missing.txt" none none)).1.status
        = some SignatureStatus.INVALID ∨
     (verifyDocument none wfs (VerificationRequest.mk "missing.txt" none none)).1.status
        = some SignatureStatus.TAMPERED ∨
     (verifyDocument none wfs (VerificationRequest.mk "missing.txt" none none)).1.status
        = some SignatureStatus.KEY_MISMATCH) ∧
    (signDocument wKey 5 wfs
        (SignatureRequest.mk "missing.txt" "Ada" "ada@example.com" none [])).1.status = none :=
  ⟨(status_discipline wKey 5 wfs
      (SignatureRequest.mk "missing.txt" "Ada" "ada@example.com" none []) none
      (VerificationRequest.mk "missing.txt" none none)).1,
   (status_discipline wKey 5 wfs
      (SignatureRequest.mk "missing.txt" "Ada" "ada@example.com" none []) none
      (VerificationRequest.mk "missing.txt" none none)).2.2 (by decide)⟩

/-! ## C9: the EXPIRED status is never produced -/

/-- No result of `sign_document` has status `EXPIRED`. -/
theorem signDocument_not_expired (signerKey : PrivKey) (now : Nat) (fs : FS)
    (req : SignatureRequest) :
    (signDocument signerKey now fs req).1.status ≠ some SignatureStatus.EXPIRED := by
  have h := signDocument_ok signerKey now fs req
  rcases Bool.eq_false_or_eq_true (signDocument signerKey now fs req).1.success with hb | hb
  · have hs := (h.2 hb).1
    simp [hs]
  · have hs := (h.1 hb).2.2
    simp [hs]

/-- No result of `verify_document` has status `EXPIRED`. -/
theorem verifyDocument_not_expired (key : Option PubKey) (fs : FS)
    (vreq : VerificationRequest) :
    (verifyDocument key fs vreq).1.status ≠ some SignatureStatus.EXPIRED := by
  rcases (verifyDocument_ok key fs vreq).2 with h | h | h | h <;> simp [h]

/-- No result in a `sign_batch` run has status `EXPIRED`. -/
theorem signBatch_not_expired (signerKey : PrivKey) (now : Nat) (name email : String)
    (fs : FS) (paths : List String) :
    ∀ r ∈ (signBatch signerKey now name email fs paths).1,
      r.status ≠ some SignatureStatus.EXPIRED := by
  induction paths generalizing fs with
  | nil => simp [signBatch]
  | cons p rest ih =>
      intro r hr
      simp only [signBatch, List.mem_cons] at hr
      rcases hr with hr | hr
      · rw [hr]
        exact signDocument_not_expired _ _ _ _
      · exact ih _ r hr

/-- No result in a `verify_batch` run has status `EXPIRED`. -/
theorem verifyBatch_not_expired (fs : FS) (key : Option PubKey) (paths : List String) :
    ∀ r ∈ (verifyBatch fs key paths).1, r.status ≠ some SignatureStatus.EXPIRED := by
  induction paths generalizing key with
  | nil => simp [verifyBatch]
  | cons p rest ih =>
      intro r hr
      simp only [verifyBatch, List.mem_cons] at hr
      rcases hr with hr | hr
      · rw [hr]
        exact verifyDocument_not_expired _ _ _
      · exact ih _ r hr

/-- **C9.** No operation of the subsystem ever produces `status=EXPIRED`:
for every input to `sign_document`, `sign_batch`, `verify_document` and
`verify_batch`, no returned result carries `SignatureStatus.EXPIRED`, even
though `EXPIRED` is a declared member of the status enumeration. -/
theorem expired_never_produced
    (signerKey : PrivKey) (now : Nat) (name email : String) (fs : FS)
    (req : SignatureRequest) (key : Option PubKey) (vreq : VerificationRequest)
    (paths paths2 : List String) :
    (signDocument signerKey now fs req).1.status ≠ some SignatureStatus.EXPIRED ∧
    (verifyDocument key fs vreq).1.status ≠ some SignatureStatus.EXPIRED ∧
    (∀ r ∈ (signBatch signerKey now name email fs paths).1,
      r.status ≠ some SignatureStatus.EXPIRED) ∧
    (∀ r ∈ (verifyBatch fs key paths2).1, r.status ≠ some SignatureStatus.EXPIRED) :=
  ⟨signDocument_not_expired signerKey now fs req,
   verifyDocument_not_expired key fs vreq,
   signBatch_not_expired signerKey now name email fs paths,
   verifyBatch_not_expired fs key paths2⟩

/-- Witness for C9 at concrete inputs, including concrete members of the
batch result lists. -/
theorem expired_never_produced_witness :
    (signDocument wKey 5 wfs
        (SignatureRequest.mk "doc.txt" "Ada" "ada@example.com" none [])).1.status
      ≠ some SignatureStatus.EXPIRED ∧
    (verifyDocument (some wKey.pub) wfs
        (VerificationRequest.mk "doc.txt" none none)).1.status
      ≠ some SignatureStatus.EXPIRED ∧
    ((signBatch wKey 5 "Ada" "ada@example.com" wfs ["doc.txt"]).1.getD 0 dRes).status
      ≠ some SignatureStatus.EXPIRED ∧
    ((verifyBatch wfs (some wKey.pub) ["doc.txt"]).1.getD 0 dRes).status
      ≠ some SignatureStatus.EXPIRED :=
  ⟨(expired_never_produced wKey 5 "Ada" "ada@example.com" wfs
      (SignatureRequest.mk "doc.txt" "Ada" "ada@example.com" none []) (some wKey.pub)
      (VerificationRequest.mk "doc.txt" none none) ["doc.txt"] ["doc.txt"]).1,
   (expired_never_produced wKey 5 "Ada" "ada@example.com" wfs
      (SignatureRequest.mk "doc.txt" "Ada" "ada@example.com" none []) (some wKey.pub)
      (VerificationRequest.mk "doc.txt" none none) ["doc.txt"] ["doc.txt"]).2.1,
   (expired_never_produced wKey 5 "Ada" "ada@example.com" wfs
      (SignatureRequest.mk "doc.txt" "Ada" "ada@example.com" none []) (some wKey.pub)
      (VerificationRequest.mk "doc.txt" none none) ["doc.txt"] ["doc.txt"]).2.2.1 _ (by decide),
   (expired_never_produced wKey 5 "Ada" "ada@example.com" wfs
      (SignatureRequest.mk "doc.txt" "Ada" "ada@example.com" none []) (some wKey.pub)
      (VerificationRequest.mk "doc.txt" none none) ["doc.txt"] ["doc.txt"]).2.2.2 _ (by decide)⟩

/-! ## C10: key resolution is stateful across verify calls -/

/-- The post-key tail always leaves the resolved key in the key manager. -/
theorem verifyAfterKey_snd (pub : PubKey) (fd : FileData) (pkg : SigPackage) :
    (verifyAfterKey (some pub) fd pkg).2 = some pub := by
  simp only [verifyAfterKey]
  split
  · rfl
  · split <;> rfl

/-- **C10.** `verify_document` is stateful with respect to key resolution:
a call whose request supplies an explicit `public_key_path` (and which
reaches the key-resolution step) loads that key into the verifier's
`KeyManager`, replacing any previously loaded public key, so every
subsequent `verify_document` call on the same verifier that supplies no
`public_key_path` behaves exactly as a verifier holding the newly loaded
key — not the key the verifier held before. -/
theorem verify_key_loading_stateful
    (key0 : Option PubKey) (fs : FS) (path p : String) (k : PubKey)
    (fd : FileData) (pkg : SigPackage)
    (hdoc : fs path = some fd)
    (hnsig : strEndsWith path ".sig" = false)
    (hsig : fs (path ++ ".sig") = some (FileData.sigFile pkg))
    (hk : fs p = some (FileData.pubKeyPem k)) :
    (verifyDocument key0 fs (VerificationRequest.mk path none (some p))).2 = some k ∧
    ∀ fs2 : FS, ∀ vreq2 : VerificationRequest, vreq2.public_key_path = none →
      verifyDocument (verifyDocument key0 fs (VerificationRequest.mk path none (some p))).2
          fs2 vreq2
        = verifyDocument (some k) fs2 vreq2 := by
  have h1 : (verifyDocument key0 fs (VerificationRequest.mk path none (some p))).2 = some k := by
    simp only [verifyDocument, hdoc, hnsig, Bool.false_eq_true, if_false, ite_false,
      loadSignatureFile, hsig, verifyResolveKey, loadPublicKey, hk]
    exact verifyAfterKey_snd k fd pkg
  refine ⟨h1, ?_⟩
  intro fs2 vreq2 _
  rw [h1]

/-- Witness for C10: a verifier constructed with one key verifies with an
explicit path to a different key file; the second key sticks for
subsequent calls. -/
theorem verify_key_loading_stateful_witness :
    (verifyDocument (some wKey.pub) wfs3
        (VerificationRequest.mk "d.txt" none (some "key2.pem"))).2 = some wKey2.pub ∧
    verifyDocument
        (verifyDocument (some wKey.pub) wfs3
          (VerificationRequest.mk "d.txt" none (some "key2.pem"))).2
        wfs3 (VerificationRequest.mk "d.txt" none none)
      = verifyDocument (some wKey2.pub) wfs3 (VerificationRequest.mk "d.txt" none none) :=
  ⟨(verify_key_loading_stateful (some wKey.pub) wfs3 "d.txt" "key2.pem" wKey2.pub
      (FileData.bytes (strBytes "abc")) wBadPkg
      (by decide) (by decide) (by decide) (by decide)).1,
   (verify_key_loading_stateful (some wKey.pub) wfs3 "d.txt" "key2.pem" wKey2.pub
      (FileData.bytes (strBytes "abc")) wBadPkg
      (by decide) (by decide) (by decide) (by decide)).2 wfs3
      (VerificationRequest.mk "d.txt" none none) rfl⟩

end ChatSec
